import Mathlib

/-!
Verification development for dbox, a tool that runs build/test/debug
commands inside unprivileged (rootless) Podman containers, one persistent
container per host working directory.

The repository ships `setup.py` (packaging entry point, embedded below as
`setupPy`).  The container session manager itself — Identity Resolver,
Session State Store, Lock Manager, Container Lifecycle Controller, Command
Executor and the Session Manager orchestrator — is described by the spec
but its source is not part of the packaged sources here, so those
components are modelled from the spec (each such definition carries a
`Modelled from the spec:` doc comment) and the properties are settled
against that model.
-/

namespace Dbox

/-- Modelled from the spec: lifecycle states of the container state machine
`ABSENT → CREATED → RUNNING → STOPPED → REMOVED` (terminal). -/
inductive SessionState where
| ABSENT
| CREATED
| RUNNING
| STOPPED
| REMOVED
deriving DecidableEq, Repr

/-- Modelled from the spec: a bind-mount spec `(host_path, container_path, mode)`
where mode is read-write or read-only. -/
structure Mount where
  host_path : String
  container_path : String
  read_only : Bool
deriving DecidableEq, Repr

/-- Modelled from the spec: one contiguous block of a UID/GID mapping —
container-side start, host-side start and length. -/
structure IdRange where
  container_start : Nat
  host_start : Nat
  size : Nat
deriving DecidableEq, Repr

/-- Modelled from the spec: the central Session entity binding a host working
directory to one container instance, with the attributes of the data model. -/
structure Session where
  workdir : String
  container_ref : Nat
  image : String
  mounts : List Mount
  uid_map : List IdRange
  gid_map : List IdRange
  state : SessionState
  created_at : Nat
deriving DecidableEq, Repr

/-- Modelled from the spec: the container runtime engine's host-level view,
a black-box collaborator: a fresh-reference counter and the set of existing
containers together with whether each is currently running. -/
structure Engine where
  nextRef : Nat
  containers : List (Nat × Bool)
deriving DecidableEq, Repr

/-- Modelled from the spec: the engine's inspect capability reports liveness —
whether a container with the given reference still exists on the host. -/
def Engine.alive (e : Engine) (r : Nat) : Bool :=
  e.containers.any (fun p => p.1 == r)

/-- Modelled from the spec: the engine's create capability returns a
runtime-assigned container reference; the new container exists but is not
yet started. -/
def Engine.create (e : Engine) : Engine × Nat :=
  ({ nextRef := e.nextRef + 1, containers := (e.nextRef, false) :: e.containers }, e.nextRef)

/-- Modelled from the spec: the engine's start capability marks the named
container as running. -/
def Engine.start (e : Engine) (r : Nat) : Engine :=
  { e with containers := e.containers.map (fun p => if p.1 == r then (p.1, true) else p) }

/-- Modelled from the spec: the engine's stop capability marks the named
container as not running. -/
def Engine.stop (e : Engine) (r : Nat) : Engine :=
  { e with containers := e.containers.map (fun p => if p.1 == r then (p.1, false) else p) }

/-- Modelled from the spec: the engine's remove capability deletes the named
container from the host. -/
def Engine.remove (e : Engine) (r : Nat) : Engine :=
  { e with containers := e.containers.filter (fun p => p.1 != r) }

/-- Modelled from the spec: observable calls made against the container
runtime engine, recorded so that properties such as "no new create call"
can be stated. -/
inductive EngineCall where
| create
| start (r : Nat)
| stop (r : Nat)
| remove (r : Nat)
| inspect (r : Nat)
| execCall (r : Nat)
deriving DecidableEq, Repr

/-- Modelled from the spec: `ensure_running(session)`, the single lifecycle
entry point used by the orchestrator.  `ABSENT`: create then start →
`RUNNING`.  `CREATED`/`STOPPED`: start → `RUNNING`.  `RUNNING`: verify
liveness via inspect; if the container no longer exists, reset to `ABSENT`
and recreate; if live, no-op.  `REMOVED` is terminal and the orchestrator
never invokes ensure_running on a removed session, so it is left unchanged.
Returns the updated engine, the updated session record, and the list of
engine calls performed. -/
def ensure_running (eng : Engine) (s : Session) : Engine × Session × List EngineCall :=
  match s.state with
  | .ABSENT =>
      let c := eng.create
      (c.1.start c.2, { s with container_ref := c.2, state := .RUNNING },
        [.create, .start c.2])
  | .CREATED =>
      (eng.start s.container_ref, { s with state := .RUNNING }, [.start s.container_ref])
  | .STOPPED =>
      (eng.start s.container_ref, { s with state := .RUNNING }, [.start s.container_ref])
  | .RUNNING =>
      if eng.alive s.container_ref then
        (eng, s, [.inspect s.container_ref])
      else
        let c := eng.create
        (c.1.start c.2, { s with container_ref := c.2, state := .RUNNING },
          [.inspect s.container_ref, .create, .start c.2])
  | .REMOVED => (eng, s, [])

/-- Modelled from the spec: `n` repeated invocations of `ensure_running`
against the session, accumulating the engine calls of all of them. -/
def ensure_running_iter : Engine → Session → Nat → Engine × Session × List EngineCall
  | eng, s, 0 => (eng, s, [])
  | eng, s, n + 1 =>
      let r1 := ensure_running eng s
      let r2 := ensure_running_iter r1.1 r1.2.1 n
      (r2.1, r2.2.1, r1.2.2 ++ r2.2.2)

/-- Whether an engine call is a container-create call. -/
def isCreate : EngineCall → Bool
  | .create => true
  | _ => false

/-- The number of container-create calls in a list of engine calls. -/
def createCount (l : List EngineCall) : Nat := l.countP isCreate

/-- Modelled from the spec: `stop(session)`: `RUNNING → STOPPED`; idempotent
if already stopped. -/
def stop (eng : Engine) (s : Session) : Engine × Session :=
  match s.state with
  | .RUNNING => (eng.stop s.container_ref, { s with state := .STOPPED })
  | _ => (eng, s)

/-- Modelled from the spec: the Session State Store persists one record per
working directory, keyed by canonical path. -/
def Store := List Session

/-- Modelled from the spec: `load(workdir)` returns the persisted record for
a working directory, or nothing if no session exists for it. -/
def load (st : Store) (w : String) : Option Session :=
  List.find? (fun t => t.workdir == w) st

/-- Modelled from the spec: `delete(workdir)` removes the persisted record. -/
def delete (st : Store) (w : String) : Store :=
  List.filter (fun t => t.workdir != w) st

/-- Modelled from the spec: `save(session)` atomically replaces the whole
record keyed by the session's workdir (write-new-then-rename semantics: a
reader observes either the old record or the new one, never a partial
write). -/
def save (st : Store) (s : Session) : Store :=
  s :: delete st s.workdir

/-- Modelled from the spec: the invariant of the Session State Store — at
most one non-removed Session record exists per workdir, i.e. the persisted
records have pairwise distinct workdir keys. -/
def uniqueWorkdirs (st : Store) : Prop :=
  List.Pairwise (fun a b => a.workdir ≠ b.workdir) st

instance (st : Store) : Decidable (uniqueWorkdirs st) :=
  inferInstanceAs (Decidable (List.Pairwise _ _))

/-- Modelled from the spec: `remove(session)`: any state → `REMOVED`; deletes
the underlying container via the runtime engine and deletes the Session
record.  Total (never raises an error) and idempotent. -/
def remove (eng : Engine) (st : Store) (s : Session) : Engine × Store × Session :=
  (eng.remove s.container_ref, delete st s.workdir, { s with state := .REMOVED })

/-- Modelled from the spec: the error taxonomy of the tool. -/
inductive Err where
| ConfigurationError
| EngineTransientError
| EngineFatalError
| LockTimeout
| SessionVanished
| PathNotMounted
deriving DecidableEq, Repr

/-- Modelled from the spec: the Identity Resolver's failure when the host
has no configured subordinate UID/GID range for the invoking user. -/
inductive ResolveError where
| NoSubordinateRange
deriving DecidableEq, Repr

/-- Modelled from the spec: the immutable identity mapping value — host
UID/GID to container UID/GID plus the subordinate ranges reserved for the
rootless namespace. -/
structure IdentityMapping where
  uid_map : List IdRange
  gid_map : List IdRange
deriving DecidableEq, Repr

/-- Modelled from the spec: `resolve(host_uid, host_gid)` reads the host's
configured subordinate UID/GID range for the invoking user and computes the
rootless mapping (host uid/gid to container root, subordinate range to the
rest); fails with `NoSubordinateRange` when none is configured.  A pure
function of the host configuration, with no side effects. -/
def resolve (host_uid host_gid : Nat) (subuid subgid : Option IdRange) :
    Except ResolveError IdentityMapping :=
  match subuid, subgid with
  | some u, some g =>
      .ok { uid_map := [⟨0, host_uid, 1⟩, ⟨1, u.host_start, u.size⟩],
            gid_map := [⟨0, host_gid, 1⟩, ⟨1, g.host_start, g.size⟩] }
  | _, _ => .error .NoSubordinateRange

/-- Modelled from the spec: the Lock Manager's `acquire(workdir, timeout)`.
`lockFreeAt = some t` means the current holder releases the lock `t` time
units from now (`some 0`: free now); `none` means it is never released
within any horizon.  Returns the outcome together with the time for which
the call blocked: success at the release time when that is within the
timeout, otherwise failure with `LockTimeout` after blocking for exactly
the timeout. -/
def acquire (lockFreeAt : Option Nat) (timeout : Nat) : Except Err Unit × Nat :=
  match lockFreeAt with
  | some t => if t ≤ timeout then (.ok (), t) else (.error .LockTimeout, timeout)
  | none => (.error .LockTimeout, timeout)

/-- Whether the first character list is a leading segment of the second. -/
def strPre : List Char → List Char → Bool
  | [], _ => true
  | _, [] => false
  | a :: as, b :: bs => a == b && strPre as bs

/-- Modelled from the spec: the container-side path corresponding to a host
path, computed via the mount mapping; nothing when the host path is not
under any mount. -/
def containerCwd (mounts : List Mount) (hostCwd : String) : Option String :=
  match mounts.find? (fun m => strPre m.host_path.data hostCwd.data) with
  | some m => some (m.container_path ++ String.drop hostCwd m.host_path.length)
  | none => none

/-- Modelled from the spec: the Command Executor's
`exec(session, command, args) -> ExitStatus` against a running session.
`cmdSem` is the black-box semantics of in-container commands (command and
arguments to exit status).  Fails with `PathNotMounted` (reported before
attempting exec) when the host cwd is under no mount, and with
`SessionVanished` when the container-ref snapshot is gone when exec begins.
Otherwise returns the command's exit status verbatim as a normal result —
a non-zero status is not an error of the Executor. -/
def exec (cmdSem : String → List String → Nat) (eng : Engine) (s : Session)
    (hostCwd cmd : String) (args : List String) :
    Except Err Nat × List EngineCall :=
  match containerCwd s.mounts hostCwd with
  | none => (.error .PathNotMounted, [])
  | some _ =>
      if eng.alive s.container_ref then
        (.ok (cmdSem cmd args), [.execCall s.container_ref])
      else
        (.error .SessionVanished, [])

/-- Modelled from the spec: default image reference resolved from
configuration. -/
def defaultImage : String := "dbox"

/-- Modelled from the spec: the whole host-visible state one invocation acts
on — engine, persisted session records, the set of workdirs whose advisory
lock is currently held, and the host's subordinate-range configuration for
the invoking user. -/
structure World where
  eng : Engine
  store : Store
  locks : List String
  subuid : Option IdRange
  subgid : Option IdRange

/-- Modelled from the spec: the outcome of one `run` invocation — the exit
status or tool-internal error, the resulting world, the engine calls made,
and how many times the Identity Resolver was invoked. -/
structure RunResult where
  result : Except Err Nat
  world : World
  calls : List EngineCall
  resolveCalls : Nat

/-- Modelled from the spec: the Session Manager orchestrator
`run(workdir, command, args)`: acquire the lock with a bounded timeout
(failing with `LockTimeout` without touching the engine when the lock is
held); load or newly construct the Session (resolving the identity mapping
and default mounts only on first construction); `ensure_running`; persist
the session; delegate to the Command Executor with the invocation's cwd
(the workdir); and release the lock on every exit path before returning. -/
def run (cmdSem : String → List String → Nat) (w : World)
    (workdir cmd : String) (args : List String)
    (host_uid host_gid now : Nat) : RunResult :=
  if w.locks.contains workdir then
    ⟨.error .LockTimeout, w, [], 0⟩
  else
    let locks1 := workdir :: w.locks
    match load w.store workdir with
    | none =>
        match resolve host_uid host_gid w.subuid w.subgid with
        | .error _ =>
            ⟨.error .ConfigurationError,
              { w with locks := locks1.erase workdir }, [], 1⟩
        | .ok im =>
            let s0 : Session :=
              { workdir := workdir, container_ref := 0, image := defaultImage,
                mounts := [⟨workdir, workdir, false⟩],
                uid_map := im.uid_map, gid_map := im.gid_map,
                state := .ABSENT, created_at := now }
            let r1 := ensure_running w.eng s0
            let e := exec cmdSem r1.1 r1.2.1 workdir cmd args
            ⟨e.1,
              { eng := r1.1, store := save w.store r1.2.1,
                locks := locks1.erase workdir,
                subuid := w.subuid, subgid := w.subgid },
              r1.2.2 ++ e.2, 1⟩
    | some s =>
        let r1 := ensure_running w.eng s
        let e := exec cmdSem r1.1 r1.2.1 workdir cmd args
        ⟨e.1,
          { eng := r1.1, store := save w.store r1.2.1,
            locks := locks1.erase workdir,
            subuid := w.subuid, subgid := w.subgid },
          r1.2.2 ++ e.2, 0⟩

/-- Concrete fixture: an engine holding one container, reference 0, running. -/
def sampleEngine : Engine := ⟨1, [(0, true)]⟩

/-- Concrete fixture: a `RUNNING` session for `/proj` bound to container 0. -/
def sampleSession : Session :=
  { workdir := "/proj", container_ref := 0, image := defaultImage,
    mounts := [⟨"/proj", "/proj", false⟩],
    uid_map := [⟨0, 1000, 1⟩, ⟨1, 100000, 65536⟩],
    gid_map := [⟨0, 1000, 1⟩, ⟨1, 100000, 65536⟩],
    state := .RUNNING, created_at := 0 }

/-- Concrete fixture: a world whose store holds `sampleSession`, with no lock
held and a configured subordinate range. -/
def sampleWorld : World :=
  { eng := sampleEngine, store := [sampleSession], locks := [],
    subuid := some ⟨1, 100000, 65536⟩, subgid := some ⟨1, 100000, 65536⟩ }

/-- Concrete fixture: a pristine world with no containers, no sessions, no
locks and no subordinate-range configuration. -/
def emptyWorld : World :=
  { eng := ⟨0, []⟩, store := [], locks := [], subuid := none, subgid := none }

/-- Concrete fixture: command semantics where `false` exits 1 and every
other command exits 0. -/
def sampleCmdSem : String → List String → Nat :=
  fun c _ => if c == "false" then 1 else 0

/-- Concrete fixture: `sampleWorld` with the lock for `/proj` already held
by another invocation. -/
def lockedWorld : World := { sampleWorld with locks := ["/proj"] }

end Dbox

namespace DboxSetup

/-- The keyword arguments of one `setup(...)` call of `setup.py`.  The
distutils keywords not passed by the call (`py_modules`, `packages`) are
kept at their empty defaults. -/
structure SetupArgs where
  name : String
  version : String
  description : String
  author : String
  author_email : String
  url : String
  scripts : List String
  py_modules : List String
  packages : List String
deriving DecidableEq, Repr

/-- The list of `setup(...)` calls the packaging entry point `setup.py`
performs when executed: exactly one, with the literal metadata of the
source. -/
def setupPy : List SetupArgs :=
  [{ name := "dbox",
     version := "1.0",
     description := "Tool for developing, building, testing and debugging software in unprivileged Podman containers",
     author := "Daniel Mach",
     author_email := "dmach@redhat.com",
     url := "https://github.com/dmach/dbox",
     scripts := ["dbox", "gitc", "gitc-recursive"],
     py_modules := [],
     packages := [] }]

end DboxSetup

namespace Dbox

theorem alive_start (e : Engine) (r q : Nat) : (e.start r).alive q = e.alive q := by
  simp only [Engine.start, Engine.alive, List.any_map]
  congr 1
  funext p
  by_cases h : p.1 = r <;> simp [h, Function.comp]

theorem ensure_running_noop (eng : Engine) (s : Session)
    (hs : s.state = .RUNNING) (ha : eng.alive s.container_ref = true) :
    ensure_running eng s = (eng, s, [.inspect s.container_ref]) := by
  unfold ensure_running
  rw [hs]
  simp [ha]

theorem alive_fresh (eng : Engine) :
    ((eng.create.1).start eng.create.2).alive eng.create.2 = true := by
  rw [alive_start]
  simp [Engine.create, Engine.alive]

theorem ensure_running_absent (eng : Engine) (s : Session) (h : s.state = .ABSENT) :
    ensure_running eng s =
      ((eng.create.1).start eng.create.2,
        { s with container_ref := eng.create.2, state := .RUNNING },
        [.create, .start eng.create.2]) := by
  unfold ensure_running
  rw [h]

theorem ensure_running_recreate (eng : Engine) (s : Session)
    (hs : s.state = .RUNNING) (hd : eng.alive s.container_ref = false) :
    ensure_running eng s =
      ((eng.create.1).start eng.create.2,
        { s with container_ref := eng.create.2, state := .RUNNING },
        [.inspect s.container_ref, .create, .start eng.create.2]) := by
  unfold ensure_running
  rw [hs]
  simp [hd]

theorem ensure_running_started (eng : Engine) (s : Session)
    (h : s.state = .CREATED ∨ s.state = .STOPPED) :
    ensure_running eng s =
      (eng.start s.container_ref, { s with state := .RUNNING },
        [.start s.container_ref]) := by
  unfold ensure_running
  rcases h with h | h <;> rw [h]

theorem ensure_running_good (eng : Engine) (s : Session)
    (h : s.state = .ABSENT ∨
      (s.state = .RUNNING ∧ eng.alive s.container_ref = false)) :
    (ensure_running eng s).2.1.state = .RUNNING ∧
    (ensure_running eng s).1.alive (ensure_running eng s).2.1.container_ref = true ∧
    createCount (ensure_running eng s).2.2 = 1 := by
  rcases h with h | ⟨hs, hd⟩
  · rw [ensure_running_absent eng s h]
    exact ⟨rfl, alive_fresh eng, by simp [createCount, List.countP_cons, isCreate]⟩
  · rw [ensure_running_recreate eng s hs hd]
    exact ⟨rfl, alive_fresh eng, by simp [createCount, List.countP_cons, isCreate]⟩

theorem ensure_running_iter_fixed (eng : Engine) (s : Session) (n : Nat)
    (hs : s.state = .RUNNING) (ha : eng.alive s.container_ref = true) :
    ensure_running_iter eng s n =
      (eng, s, List.replicate n (.inspect s.container_ref)) := by
  induction n with
  | zero => rfl
  | succ m ih =>
      simp [ensure_running_iter, ensure_running_noop eng s hs ha, ih,
        List.replicate_succ]

theorem createCount_replicate_inspect (n r : Nat) :
    createCount (List.replicate n (.inspect r)) = 0 := by
  induction n with
  | zero => rfl
  | succ m ih =>
      simp [List.replicate_succ, createCount, List.countP_cons, isCreate] at ih ⊢
      try exact ih

theorem ensure_running_iter_succ (eng : Engine) (s : Session) (m : Nat) :
    ensure_running_iter eng s (m + 1) =
      ((ensure_running_iter (ensure_running eng s).1 (ensure_running eng s).2.1 m).1,
       (ensure_running_iter (ensure_running eng s).1 (ensure_running eng s).2.1 m).2.1,
       (ensure_running eng s).2.2 ++
         (ensure_running_iter (ensure_running eng s).1 (ensure_running eng s).2.1 m).2.2) := by
  rw [ensure_running_iter]

theorem ensure_running_iter_succ_fixed (eng : Engine) (s : Session) (m : Nat)
    (h1 : (ensure_running eng s).2.1.state = .RUNNING)
    (h2 : (ensure_running eng s).1.alive (ensure_running eng s).2.1.container_ref = true) :
    ensure_running_iter eng s (m + 1) =
      ((ensure_running eng s).1, (ensure_running eng s).2.1,
        (ensure_running eng s).2.2 ++
          List.replicate m (.inspect (ensure_running eng s).2.1.container_ref)) := by
  rw [ensure_running_iter,
    ensure_running_iter_fixed (ensure_running eng s).1 (ensure_running eng s).2.1 m h1 h2]

theorem createCount_noop (eng : Engine) (s : Session)
    (hs : s.state = .RUNNING) (ha : eng.alive s.container_ref = true) :
    createCount (ensure_running eng s).2.2 = 0 := by
  rw [ensure_running_noop eng s hs ha]
  simp [createCount, List.countP_cons, isCreate]

theorem ensure_running_iter_from_running (eng : Engine) (s : Session) (m : Nat)
    (hs : s.state = .RUNNING) :
    (ensure_running_iter eng s m).2.1.state = .RUNNING ∧
    createCount (ensure_running_iter eng s m).2.2 ≤ 1 := by
  cases m with
  | zero => exact ⟨hs, by simp [ensure_running_iter, createCount]⟩
  | succ k =>
      by_cases ha : eng.alive s.container_ref = true
      · have hp1 : (ensure_running eng s).2.1.state = .RUNNING := by
          rw [ensure_running_noop eng s hs ha]; exact hs
        have hp2 : (ensure_running eng s).1.alive
            (ensure_running eng s).2.1.container_ref = true := by
          rw [ensure_running_noop eng s hs ha]; exact ha
        rw [ensure_running_iter_succ_fixed eng s k hp1 hp2]
        refine ⟨hp1, ?_⟩
        have h1 := createCount_noop eng s hs ha
        have h2 := createCount_replicate_inspect k
          (ensure_running eng s).2.1.container_ref
        simp only [createCount, List.countP_append] at h1 h2 ⊢
        omega
      · have hd : eng.alive s.container_ref = false := by
          cases hh : eng.alive s.container_ref
          · rfl
          · exact absurd hh ha
        have hg := ensure_running_good eng s (Or.inr ⟨hs, hd⟩)
        rw [ensure_running_iter_succ_fixed eng s k hg.1 hg.2.1]
        refine ⟨hg.1, ?_⟩
        have h1 := hg.2.2
        have h2 := createCount_replicate_inspect k
          (ensure_running eng s).2.1.container_ref
        simp only [createCount, List.countP_append] at h1 h2 ⊢
        omega

/-- C1: for every working directory, repeated calls of `ensure_running` on
its (non-removed) session converge to `RUNNING` and remain there, with at
most one container-create call issued across all the repeated calls —
including the recovery case where the underlying container was deleted
outside the tool; and when the session is already `RUNNING` with a live
container, `ensure_running` leaves the engine and the session unchanged
and performs no create call (only the liveness inspect). -/
theorem ensure_running_converges (eng : Engine) (s : Session)
    (hnr : s.state ≠ .REMOVED) :
    (∀ n, 1 ≤ n →
      (ensure_running_iter eng s n).2.1.state = .RUNNING ∧
      createCount (ensure_running_iter eng s n).2.2 ≤ 1) ∧
    (s.state = .RUNNING → eng.alive s.container_ref = true →
      (ensure_running eng s).1 = eng ∧ (ensure_running eng s).2.1 = s ∧
      createCount (ensure_running eng s).2.2 = 0) := by
  constructor
  · intro n hn
    obtain ⟨m, rfl⟩ : ∃ m, n = m + 1 := ⟨n - 1, by omega⟩
    cases h : s.state with
    | REMOVED => exact absurd h hnr
    | RUNNING => exact ensure_running_iter_from_running eng s (m + 1) h
    | ABSENT =>
        have hg := ensure_running_good eng s (Or.inl h)
        rw [ensure_running_iter_succ_fixed eng s m hg.1 hg.2.1]
        refine ⟨hg.1, ?_⟩
        have h1 := hg.2.2
        have h2 := createCount_replicate_inspect m
          (ensure_running eng s).2.1.container_ref
        simp only [createCount, List.countP_append] at h1 h2 ⊢
        omega
    | CREATED =>
        have hst := ensure_running_started eng s (Or.inl h)
        have hs1 : (ensure_running eng s).2.1.state = .RUNNING := by rw [hst]
        have htail := ensure_running_iter_from_running (ensure_running eng s).1
          (ensure_running eng s).2.1 m hs1
        rw [ensure_running_iter_succ eng s m]
        refine ⟨htail.1, ?_⟩
        have h1 : createCount (ensure_running eng s).2.2 = 0 := by
          rw [hst]; simp [createCount, List.countP_cons, isCreate]
        have h2 := htail.2
        simp only [createCount, List.countP_append] at h1 h2 ⊢
        omega
    | STOPPED =>
        have hst := ensure_running_started eng s (Or.inr h)
        have hs1 : (ensure_running eng s).2.1.state = .RUNNING := by rw [hst]
        have htail := ensure_running_iter_from_running (ensure_running eng s).1
          (ensure_running eng s).2.1 m hs1
        rw [ensure_running_iter_succ eng s m]
        refine ⟨htail.1, ?_⟩
        have h1 : createCount (ensure_running eng s).2.2 = 0 := by
          rw [hst]; simp [createCount, List.countP_cons, isCreate]
        have h2 := htail.2
        simp only [createCount, List.countP_append] at h1 h2 ⊢
        omega
  · intro hs ha
    rw [ensure_running_noop eng s hs ha]
    exact ⟨rfl, rfl, by simp [createCount, List.countP_cons, isCreate]⟩

/-- C1 witness: the fixture session is not removed; three repeated calls
end in `RUNNING` and the single call on the already-running live session
changes nothing. -/
theorem ensure_running_converges_witness :
    sampleSession.state ≠ .REMOVED ∧
    (ensure_running_iter sampleEngine sampleSession 3).2.1.state = .RUNNING ∧
    (ensure_running sampleEngine sampleSession).2.1 = sampleSession :=
  ⟨by decide,
    ((ensure_running_converges sampleEngine sampleSession (by decide)).1
      3 (by decide)).1,
    ((ensure_running_converges sampleEngine sampleSession (by decide)).2
      rfl (by decide)).2.1⟩

theorem uniqueWorkdirs_delete (st : Store) (w : String) (h : uniqueWorkdirs st) :
    uniqueWorkdirs (delete st w) :=
  List.Pairwise.filter _ h

theorem uniqueWorkdirs_save (st : Store) (s : Session) (h : uniqueWorkdirs st) :
    uniqueWorkdirs (save st s) := by
  unfold save uniqueWorkdirs
  rw [List.pairwise_cons]
  refine ⟨?_, uniqueWorkdirs_delete st s.workdir h⟩
  intro t ht
  have h2 := (List.mem_filter.mp ht).2
  simp only [bne_iff_ne, ne_eq] at h2
  exact Ne.symm h2

theorem run_store_unique (cmdSem : String → List String → Nat) (w : World)
    (workdir cmd : String) (args : List String) (hu hg now : Nat)
    (h : uniqueWorkdirs w.store) :
    uniqueWorkdirs (run cmdSem w workdir cmd args hu hg now).world.store := by
  unfold run
  by_cases hl : w.locks.contains workdir = true
  · rw [if_pos hl]; exact h
  · rw [if_neg hl]
    cases hload : load w.store workdir with
    | none =>
        cases hres : resolve hu hg w.subuid w.subgid with
        | error e => exact h
        | ok im => exact uniqueWorkdirs_save _ _ h
    | some s => exact uniqueWorkdirs_save _ _ h

/-- C2: at most one Session record exists per workdir (the records'
workdir keys are pairwise distinct), and every operation of the system —
`save`, `delete`, `remove` and a whole `run` invocation — preserves this
invariant. -/
theorem store_at_most_one_per_workdir (st : Store) (s : Session) (w : String)
    (eng : Engine) (cmdSem : String → List String → Nat) (wld : World)
    (workdir cmd : String) (args : List String) (hu hg now : Nat)
    (h : uniqueWorkdirs st) (hw : uniqueWorkdirs wld.store) :
    uniqueWorkdirs (save st s) ∧
    uniqueWorkdirs (delete st w) ∧
    uniqueWorkdirs (remove eng st s).2.1 ∧
    uniqueWorkdirs (run cmdSem wld workdir cmd args hu hg now).world.store :=
  ⟨uniqueWorkdirs_save st s h, uniqueWorkdirs_delete st w h,
    uniqueWorkdirs_delete st s.workdir h,
    run_store_unique cmdSem wld workdir cmd args hu hg now hw⟩

/-- C2 witness: the fixture store satisfies the invariant, and saving a
session as well as a whole `run` invocation preserve it. -/
theorem store_at_most_one_per_workdir_witness :
    uniqueWorkdirs sampleWorld.store ∧
    uniqueWorkdirs (save sampleWorld.store sampleSession) ∧
    uniqueWorkdirs
      (run sampleCmdSem sampleWorld "/proj" "true" [] 1000 1000 0).world.store :=
  ⟨by decide,
    (store_at_most_one_per_workdir sampleWorld.store sampleSession "/proj"
      sampleEngine sampleCmdSem sampleWorld "/proj" "true" [] 1000 1000 0
      (by decide) (by decide)).1,
    (store_at_most_one_per_workdir sampleWorld.store sampleSession "/proj"
      sampleEngine sampleCmdSem sampleWorld "/proj" "true" [] 1000 1000 0
      (by decide) (by decide)).2.2.2⟩

theorem filter_idem {α : Type} (p : α → Bool) (l : List α) :
    (l.filter p).filter p = l.filter p := by
  induction l with
  | nil => rfl
  | cons a l ih =>
      by_cases h : p a = true <;> simp [List.filter_cons, h, ih]

theorem Engine.remove_idem (e : Engine) (r : Nat) :
    (e.remove r).remove r = e.remove r := by
  simp [Engine.remove, filter_idem]

theorem delete_idem (st : Store) (w : String) :
    delete (delete st w) w = delete st w :=
  filter_idem _ st

theorem alive_remove_self (e : Engine) (r : Nat) : (e.remove r).alive r = false := by
  rw [Engine.remove, Engine.alive]
  simp only [List.any_eq_false, List.mem_filter, bne_iff_ne, ne_eq, beq_iff_eq,
    and_imp]
  intro a _ hne
  exact hne

theorem load_delete (st : Store) (w : String) : load (delete st w) w = none := by
  rw [load, delete]
  simp only [List.find?_eq_none, List.mem_filter, bne_iff_ne, ne_eq, beq_iff_eq,
    and_imp]
  intro a _ hne
  exact hne

/-- C3: `remove` transitions the session to `REMOVED`, deletes the
underlying container from the engine and deletes the Session record from
the store; it is a total function (never errors), and applying `remove` a
second time in succession changes nothing. -/
theorem remove_idempotent (eng : Engine) (st : Store) (s : Session) :
    (remove eng st s).2.2.state = .REMOVED ∧
    (remove eng st s).1.alive s.container_ref = false ∧
    load (remove eng st s).2.1 s.workdir = none ∧
    remove (remove eng st s).1 (remove eng st s).2.1 (remove eng st s).2.2 =
      ((remove eng st s).1, (remove eng st s).2.1, (remove eng st s).2.2) := by
  refine ⟨rfl, alive_remove_self eng s.container_ref, load_delete st s.workdir, ?_⟩
  simp [remove, Engine.remove_idem, delete_idem]

theorem load_save_eq (st : Store) (s : Session) :
    load (save st s) s.workdir = some s := by
  rw [save, load]
  simp [List.find?_cons]

/-- C4: saving a session record and then loading its workdir returns a
record equal to the saved one in all fields. -/
theorem save_load_roundtrip (st : Store) (s : Session) :
    load (save st s) s.workdir = some s :=
  load_save_eq st s

/-- C5: the Command Executor returns the in-container command's exit status
verbatim as a normal (`ok`) result — a non-zero status is not raised as an
error — and a `run` against an existing live `RUNNING` session issues no
new create call and returns the command's status. -/
theorem exec_returns_status_verbatim
    (cmdSem : String → List String → Nat) (eng : Engine) (s : Session)
    (hostCwd cmd : String) (args : List String)
    (w : World) (workdir cmd2 : String) (args2 : List String) (hu hg now : Nat)
    (hcwd : (containerCwd s.mounts hostCwd).isSome = true)
    (halive : eng.alive s.container_ref = true)
    (hnl : workdir ∉ w.locks)
    (hload : load w.store workdir = some s)
    (hst : s.state = .RUNNING)
    (halive2 : w.eng.alive s.container_ref = true)
    (hcwd2 : (containerCwd s.mounts workdir).isSome = true) :
    (exec cmdSem eng s hostCwd cmd args).1 = .ok (cmdSem cmd args) ∧
    (run cmdSem w workdir cmd2 args2 hu hg now).result = .ok (cmdSem cmd2 args2) ∧
    createCount (run cmdSem w workdir cmd2 args2 hu hg now).calls = 0 := by
  obtain ⟨p, hp⟩ := Option.isSome_iff_exists.mp hcwd
  obtain ⟨q, hq⟩ := Option.isSome_iff_exists.mp hcwd2
  have hnoop := ensure_running_noop w.eng s hst halive2
  refine ⟨?_, ?_, ?_⟩
  · simp [exec, hp, halive]
  · simp [run, hnl, hload, hnoop, exec, hq, halive2]
  · simp [run, hnl, hload, hnoop, exec, hq, halive2, createCount,
      List.countP_cons, List.countP_append, isCreate]

/-- C5 witness: in the fixture world, a second invocation running `false`
against the existing live `RUNNING` container returns exit status 1 and
issues no create call. -/
theorem exec_returns_status_verbatim_witness :
    (run sampleCmdSem sampleWorld "/proj" "false" [] 1000 1000 0).result = .ok 1 ∧
    createCount (run sampleCmdSem sampleWorld "/proj" "false" [] 1000 1000 0).calls = 0 :=
  ⟨(by decide : sampleCmdSem "false" [] = 1) ▸
      (exec_returns_status_verbatim sampleCmdSem sampleEngine sampleSession
        "/proj" "false" [] sampleWorld "/proj" "false" [] 1000 1000 0
        (by decide) (by decide) (by decide) (by decide) rfl (by decide)
        (by decide)).2.1,
    (exec_returns_status_verbatim sampleCmdSem sampleEngine sampleSession
      "/proj" "false" [] sampleWorld "/proj" "false" [] 1000 1000 0
      (by decide) (by decide) (by decide) (by decide) rfl (by decide)
      (by decide)).2.2⟩

/-- C6: with no configured subordinate UID/GID range `resolve` fails with
`NoSubordinateRange`, and a `run` needing a new session then fails with
`ConfigurationError` before any engine call is made; with a configured
range `resolve` succeeds (it is a pure function of the host
configuration). -/
theorem resolve_requires_subordinate_range
    (u g : Nat) (so : Option IdRange) (a b : IdRange)
    (cmdSem : String → List String → Nat) (w : World)
    (workdir cmd : String) (args : List String) (hu hg now : Nat)
    (hnone : w.subuid = none ∨ w.subgid = none)
    (hnl : workdir ∉ w.locks)
    (hload : load w.store workdir = none) :
    resolve u g none so = .error .NoSubordinateRange ∧
    resolve u g so none = .error .NoSubordinateRange ∧
    (resolve u g (some a) (some b)).isOk = true ∧
    (run cmdSem w workdir cmd args hu hg now).result = .error .ConfigurationError ∧
    (run cmdSem w workdir cmd args hu hg now).calls = [] ∧
    (run cmdSem w workdir cmd args hu hg now).world.eng = w.eng := by
  have h1 : ∀ (ua ga : Nat) (x : Option IdRange),
      resolve ua ga none x = .error .NoSubordinateRange := by
    intro ua ga x; cases x <;> rfl
  have h2 : ∀ (ua ga : Nat) (x : Option IdRange),
      resolve ua ga x none = .error .NoSubordinateRange := by
    intro ua ga x; cases x <;> rfl
  have hres : resolve hu hg w.subuid w.subgid = .error .NoSubordinateRange := by
    rcases hnone with h | h
    · rw [h]; exact h1 _ _ _
    · rw [h]; exact h2 _ _ _
  refine ⟨h1 u g so, h2 u g so, rfl, ?_, ?_, ?_⟩ <;> simp [run, hnl, hload, hres]

/-- C6 witness: in the pristine world without a subordinate range, `run`
fails with `ConfigurationError` and makes no engine call. -/
theorem resolve_requires_subordinate_range_witness :
    (emptyWorld.subuid = none ∨ emptyWorld.subgid = none) ∧
    (run sampleCmdSem emptyWorld "/proj" "true" [] 1000 1000 0).result =
      .error .ConfigurationError ∧
    (run sampleCmdSem emptyWorld "/proj" "true" [] 1000 1000 0).calls = [] :=
  ⟨by decide,
    (resolve_requires_subordinate_range 1000 1000 (some ⟨1, 100000, 65536⟩)
      ⟨1, 100000, 65536⟩ ⟨1, 100000, 65536⟩ sampleCmdSem emptyWorld "/proj"
      "true" [] 1000 1000 0 (by decide) (by decide) (by decide)).2.2.2.1,
    (resolve_requires_subordinate_range 1000 1000 (some ⟨1, 100000, 65536⟩)
      ⟨1, 100000, 65536⟩ ⟨1, 100000, 65536⟩ sampleCmdSem emptyWorld "/proj"
      "true" [] 1000 1000 0 (by decide) (by decide) (by decide)).2.2.2.2.1⟩

/-- C7: lock acquisition blocks for at most the given timeout; when the
lock is not obtained the failure is `LockTimeout`; and an invocation that
times out on the lock performs no lifecycle operation — `run` returns the
`LockTimeout` error with the world untouched and no engine call. -/
theorem acquire_within_timeout
    (lockFreeAt : Option Nat) (timeout : Nat)
    (cmdSem : String → List String → Nat) (w : World)
    (workdir cmd : String) (args : List String) (hu hg now : Nat)
    (hheld : w.locks.contains workdir = true) :
    (acquire lockFreeAt timeout).2 ≤ timeout ∧
    ((acquire lockFreeAt timeout).1.isOk = false →
      (acquire lockFreeAt timeout).1 = .error .LockTimeout) ∧
    run cmdSem w workdir cmd args hu hg now =
      ⟨.error .LockTimeout, w, [], 0⟩ := by
  refine ⟨?_, ?_, ?_⟩
  · cases lockFreeAt with
    | none => exact le_refl _
    | some t =>
        show (if t ≤ timeout then ((Except.ok ()), t)
          else ((Except.error Err.LockTimeout), timeout)).2 ≤ timeout
        by_cases h : t ≤ timeout
        · rw [if_pos h]; exact h
        · rw [if_neg h]
  · cases lockFreeAt with
    | none => intro _; rfl
    | some t =>
        show (if t ≤ timeout then ((Except.ok ()), t)
            else ((Except.error Err.LockTimeout), timeout)).1.isOk = false →
          (if t ≤ timeout then ((Except.ok ()), t)
            else ((Except.error Err.LockTimeout), timeout)).1 = .error .LockTimeout
        by_cases h : t ≤ timeout
        · rw [if_pos h]
          intro hko
          have hko2 : (Except.ok () : Except Err Unit).isOk = false := hko
          exact absurd hko2 (by decide)
        · rw [if_neg h]; intro _; rfl
  · unfold run
    rw [if_pos hheld]

/-- C7 witness: with the `/proj` lock held, `acquire` with a never-freed
lock blocks for exactly the timeout and `run` exits with `LockTimeout`
leaving the world untouched. -/
theorem acquire_within_timeout_witness :
    lockedWorld.locks.contains "/proj" = true ∧
    (acquire none 5).2 ≤ 5 ∧
    run sampleCmdSem lockedWorld "/proj" "true" [] 1000 1000 0 =
      ⟨.error .LockTimeout, lockedWorld, [], 0⟩ :=
  ⟨by decide,
    (acquire_within_timeout none 5 sampleCmdSem lockedWorld "/proj" "true" []
      1000 1000 0 (by decide)).1,
    (acquire_within_timeout none 5 sampleCmdSem lockedWorld "/proj" "true" []
      1000 1000 0 (by decide)).2.2⟩

/-- C8: on every exit path of a `run` invocation — lock timeout, missing
configuration, or delegation to the executor whatever its outcome — the
lock state after the invocation equals the lock state before it: the
invocation never terminates still holding its lock. -/
theorem run_never_keeps_lock (cmdSem : String → List String → Nat) (w : World)
    (workdir cmd : String) (args : List String) (hu hg now : Nat) :
    (run cmdSem w workdir cmd args hu hg now).world.locks = w.locks := by
  unfold run
  by_cases hl : w.locks.contains workdir = true
  · rw [if_pos hl]
  · rw [if_neg hl]
    have he : (workdir :: w.locks).erase workdir = w.locks :=
      List.erase_cons_head workdir w.locks
    cases hload : load w.store workdir with
    | none =>
        cases hres : resolve hu hg w.subuid w.subgid with
        | error e => exact he
        | ok im => exact he
    | some s => exact he

theorem ensure_running_keeps_identity (eng : Engine) (s : Session) :
    (ensure_running eng s).2.1.uid_map = s.uid_map ∧
    (ensure_running eng s).2.1.gid_map = s.gid_map ∧
    (ensure_running eng s).2.1.workdir = s.workdir := by
  unfold ensure_running
  cases s.state with
  | ABSENT => exact ⟨rfl, rfl, rfl⟩
  | CREATED => exact ⟨rfl, rfl, rfl⟩
  | STOPPED => exact ⟨rfl, rfl, rfl⟩
  | REMOVED => exact ⟨rfl, rfl, rfl⟩
  | RUNNING =>
      by_cases h : eng.alive s.container_ref = true
      · rw [if_pos h]; exact ⟨rfl, rfl, rfl⟩
      · rw [if_neg h]; exact ⟨rfl, rfl, rfl⟩

theorem stop_keeps_identity (eng : Engine) (s : Session) :
    (stop eng s).2.uid_map = s.uid_map ∧ (stop eng s).2.gid_map = s.gid_map := by
  unfold stop
  cases s.state
  all_goals exact ⟨rfl, rfl⟩

/-- C9: the identity mapping is stored immutably in the Session record —
`ensure_running` and `stop` never change the stored `uid_map`/`gid_map`,
and a `run` invocation against an existing session never invokes the
Identity Resolver and persists a record with the original maps. -/
theorem identity_mapping_immutable (eng : Engine) (s : Session)
    (cmdSem : String → List String → Nat) (w : World)
    (workdir cmd : String) (args : List String) (hu hg now : Nat) (s0 : Session)
    (hnl : workdir ∉ w.locks)
    (hload : load w.store workdir = some s0) :
    ((ensure_running eng s).2.1.uid_map = s.uid_map ∧
     (ensure_running eng s).2.1.gid_map = s.gid_map) ∧
    ((stop eng s).2.uid_map = s.uid_map ∧ (stop eng s).2.gid_map = s.gid_map) ∧
    (run cmdSem w workdir cmd args hu hg now).resolveCalls = 0 ∧
    load (run cmdSem w workdir cmd args hu hg now).world.store workdir =
      some ((ensure_running w.eng s0).2.1) ∧
    ((ensure_running w.eng s0).2.1.uid_map = s0.uid_map ∧
     (ensure_running w.eng s0).2.1.gid_map = s0.gid_map) := by
  have hk := ensure_running_keeps_identity eng s
  have hk0 := ensure_running_keeps_identity w.eng s0
  have hstop := stop_keeps_identity eng s
  have hfind : List.find? (fun t => t.workdir == workdir) w.store = some s0 := hload
  have hwd : s0.workdir = workdir := by
    have h := List.find?_some hfind
    simpa using h
  have hnl' : ¬ w.locks.contains workdir = true := by simpa using hnl
  refine ⟨⟨hk.1, hk.2.1⟩, hstop, ?_, ?_, hk0.1, hk0.2.1⟩
  · unfold run
    rw [if_neg hnl', hload]
  · unfold run
    rw [if_neg hnl', hload]
    show load (save w.store (ensure_running w.eng s0).2.1) workdir = _
    rw [← hk0.2.2.trans hwd]
    exact load_save_eq _ _

/-- C9 witness: in the fixture world with an existing session, `run` never
invokes the Identity Resolver and `ensure_running` keeps the stored uid
map. -/
theorem identity_mapping_immutable_witness :
    load sampleWorld.store "/proj" = some sampleSession ∧
    (run sampleCmdSem sampleWorld "/proj" "true" [] 1000 1000 0).resolveCalls = 0 ∧
    (ensure_running sampleWorld.eng sampleSession).2.1.uid_map =
      sampleSession.uid_map :=
  ⟨by decide,
    (identity_mapping_immutable sampleEngine sampleSession sampleCmdSem
      sampleWorld "/proj" "true" [] 1000 1000 0 sampleSession (by decide)
      (by decide)).2.2.1,
    (identity_mapping_immutable sampleEngine sampleSession sampleCmdSem
      sampleWorld "/proj" "true" [] 1000 1000 0 sampleSession (by decide)
      (by decide)).2.2.2.2.1⟩

end Dbox

namespace DboxSetup

/-- C10: the packaging entry point performs exactly one `setup(...)` call,
with literal name `dbox` and version `1.0`, declaring exactly the three
executables `dbox`, `gitc` and `gitc-recursive` and no Python modules or
packages. -/
theorem setup_called_once_with_fixed_metadata :
    setupPy.length = 1 ∧
    ∀ a ∈ setupPy, a.name = "dbox" ∧ a.version = "1.0" ∧
      a.scripts = ["dbox", "gitc", "gitc-recursive"] ∧
      a.py_modules = [] ∧ a.packages = [] := by
  decide

end DboxSetup
